import Mathlib

/-!
Verification development for the open-notebook API routers
(`api/routers/sources.py` and `api/routers/notes.py`).

The routers are shallowly embedded as pure functions over an explicit
`Store` value that stands for the external Domain Store (persistence for
Notebook, Source, Note and Transformation records).  The external
ingestion pipeline (`source_graph.ainvoke`) is a function parameter
`pipeline : PipelineInput → Source`: the handler builds the exact payload
record the Python code passes to `ainvoke` and applies the parameter to
it, so "the pipeline is never invoked" corresponds to the handler
returning an error for every choice of `pipeline`.

Python truthiness on optional strings (`if not source_data.url`) is
`optStrBlank`: true for `None` and for the empty string.  Raised
`HTTPException`s become `Except.error` carrying an `HTTPError` record
with the literal status code and detail string of the Python code.
-/

/-- HTTP error as raised by the routers via HTTPException. -/
structure HTTPError where
  status : Nat
  detail : String
deriving DecidableEq, Repr

/-- Asset record of the domain layer: at most one of file_path and url. -/
structure Asset where
  file_path : Option String := none
  url : Option String := none
deriving DecidableEq, Repr

/-- Source domain record, as read and written by the routers.  Timestamps
are rendered with `str(...)` by the routers, so they are kept as strings. -/
structure Source where
  id : String
  title : Option String := none
  topics : Option (List String) := none
  asset : Option Asset := none
  full_text : Option String := none
  embedded_chunks : Nat := 0
  insights : List String := []
  created : String := ""
  updated : String := ""
deriving DecidableEq, Repr

/-- Transformation domain record.  Modelled from the spec: the class lives
in the external `open_notebook.domain.transformation` module; the spec
gives it id, name, title, description, prompt template and apply_default.
Only `id` is consulted by the router. -/
structure Transformation where
  id : String
  name : String := ""
  title : String := ""
  description : String := ""
  prompt : String := ""
  apply_default : Bool := false
deriving DecidableEq, Repr

/-- Note domain record used by the notes router. -/
structure Note where
  id : String
  title : Option String := none
  content : Option String := none
  note_type : Option String := none
  created : String := ""
  updated : String := ""
deriving DecidableEq, Repr

/-- Notebook domain record.  `sources` models the `notebook.sources`
relation used by GET /api/sources; `note_ids` models the note links
created by `add_to_notebook`. -/
structure Notebook where
  id : String
  sources : List Source := []
  note_ids : List String := []
deriving DecidableEq, Repr

/-- The Domain Store: the tables the routers read and write through
`Notebook.get`, `Source.get`, `Source.get_all`, `Transformation.get`,
`save` and the note insertion done by `Note.save`. -/
structure Store where
  notebooks : List Notebook := []
  allSources : List Source := []
  transformations : List Transformation := []
  notes : List Note := []
deriving DecidableEq, Repr

/-- Modelled from the spec: Domain Store lookup `Notebook.get(id)`,
returning the notebook with the given id or None. -/
def Notebook.get (store : Store) (id : String) : Option Notebook :=
  store.notebooks.find? (fun nb => nb.id == id)

/-- Modelled from the spec: Domain Store lookup `Source.get(id)`. -/
def Source.get (store : Store) (id : String) : Option Source :=
  store.allSources.find? (fun s => s.id == id)

/-- Modelled from the spec: `Source.get_all(order_by=...)`.  The ordering
is applied by the external database; the claims checked here do not
depend on it, so the table is returned as stored. -/
def Source.get_all (store : Store) : List Source :=
  store.allSources

/-- Modelled from the spec: Domain Store lookup `Transformation.get(id)`. -/
def Transformation.get (store : Store) (id : String) : Option Transformation :=
  store.transformations.find? (fun t => t.id == id)

/-- Modelled from the spec: `source.save()` persists the object under its
id in the Domain Store (the record with the matching id is replaced). -/
def saveSource (store : Store) (s : Source) : Store :=
  { store with allSources := store.allSources.map (fun x => if x.id == s.id then s else x) }

/-- Python truthiness of an optional string: `not x` is true for None and
for the empty string. -/
def optStrBlank : Option String → Bool
  | none => true
  | some s => s.isEmpty

/-- AssetModel of the response DTOs. -/
structure AssetModel where
  file_path : Option String
  url : Option String
deriving DecidableEq, Repr

/-- SourceResponse DTO: the full Source JSON shape, including full_text. -/
structure SourceResponse where
  id : String
  title : Option String
  topics : List String
  asset : Option AssetModel
  full_text : Option String
  embedded_chunks : Nat
  created : String
  updated : String
deriving DecidableEq, Repr

/-- SourceListResponse DTO: the list-endpoint summary shape.  It has no
full_text field and adds insights_count. -/
structure SourceListResponse where
  id : String
  title : Option String
  topics : List String
  asset : Option AssetModel
  embedded_chunks : Nat
  insights_count : Nat
  created : String
  updated : String
deriving DecidableEq, Repr

/-- The asset rendering shared by every sources endpoint:
`AssetModel(...) if source.asset else None`. -/
def renderAsset : Option Asset → Option AssetModel
  | none => none
  | some a => some { file_path := a.file_path, url := a.url }

/-- The SourceResponse construction shared by POST /api/sources,
GET /api/sources/(id) and PUT /api/sources/(id): topics is
`source.topics or []`, asset goes through `renderAsset`. -/
def renderSource (s : Source) : SourceResponse :=
  { id := s.id
    title := s.title
    topics := s.topics.getD []
    asset := renderAsset s.asset
    full_text := s.full_text
    embedded_chunks := s.embedded_chunks
    created := s.created
    updated := s.updated }

/-- The SourceListResponse construction of GET /api/sources:
no full_text, and insights_count is `len(source.insights)`. -/
def renderSourceList (s : Source) : SourceListResponse :=
  { id := s.id
    title := s.title
    topics := s.topics.getD []
    asset := renderAsset s.asset
    embedded_chunks := s.embedded_chunks
    insights_count := s.insights.length
    created := s.created
    updated := s.updated }

/-- SourceCreate request DTO.  The field list follows the router and the
HTTP client (`api/client.py`); the spec's IngestionRequest confirms
`title` as an optional request field that the router never reads. -/
structure SourceCreate where
  notebook_id : String
  type : String
  url : Option String := none
  file_path : Option String := none
  content : Option String := none
  title : Option String := none
  transformations : Option (List String) := none
  embed : Bool := false
  delete_source : Bool := false
deriving DecidableEq, Repr

/-- SourceUpdate request DTO: absent fields mean "unchanged". -/
structure SourceUpdate where
  title : Option String := none
  topics : Option (List String) := none
deriving DecidableEq, Repr

/-- The content_state dictionary assembled by create_source; only the
keys actually set by the handler are present (the rest stay `none`). -/
structure ContentState where
  url : Option String := none
  file_path : Option String := none
  delete_source : Option Bool := none
  content : Option String := none
deriving DecidableEq, Repr

/-- The exact payload dictionary passed to `source_graph.ainvoke`. -/
structure PipelineInput where
  content_state : ContentState
  notebook_id : String
  apply_transformations : List Transformation
  embed : Bool
deriving DecidableEq, Repr

/-- Origin validation of create_source: the if/elif/else chain over
`source_data.type` that builds content_state or raises 400. -/
def buildContentState (data : SourceCreate) : Except HTTPError ContentState :=
  if data.type = "link" then
    if optStrBlank data.url then .error ⟨400, "URL is required for link type"⟩
    else .ok { url := data.url }
  else if data.type = "upload" then
    if optStrBlank data.file_path then .error ⟨400, "File path is required for upload type"⟩
    else .ok { file_path := data.file_path, delete_source := some data.delete_source }
  else if data.type = "text" then
    if optStrBlank data.content then .error ⟨400, "Content is required for text type"⟩
    else .ok { content := data.content }
  else .error ⟨400, "Invalid source type. Must be link, upload, or text"⟩

/-- The transformation-resolution loop of create_source: ids are looked
up in the caller-supplied order and the first miss raises 404 naming
that id. -/
def resolveTransformations (store : Store) : List String → Except HTTPError (List Transformation)
  | [] => .ok []
  | tid :: rest =>
    match Transformation.get store tid with
    | none => .error ⟨404, "Transformation " ++ tid ++ " not found"⟩
    | some t =>
      match resolveTransformations store rest with
      | .error e => .error e
      | .ok ts => .ok (t :: ts)

/-- Everything create_source does before `source_graph.ainvoke`: the
notebook check, origin validation, and transformation resolution, in the
order of the Python code; on success it returns the exact ainvoke
payload. -/
def create_source_validate (store : Store) (data : SourceCreate) : Except HTTPError PipelineInput :=
  match Notebook.get store data.notebook_id with
  | none => .error ⟨404, "Notebook not found"⟩
  | some _ =>
    match buildContentState data with
    | .error e => .error e
    | .ok cs =>
      let tids := match data.transformations with
        | none => []
        | some ts => ts
      match resolveTransformations store tids with
      | .error e => .error e
      | .ok trs =>
        .ok { content_state := cs
              notebook_id := data.notebook_id
              apply_transformations := trs
              embed := data.embed }

/-- POST /api/sources.  `pipeline` stands for `source_graph.ainvoke`
followed by `result["source"]`; it is applied only when validation
succeeds, and the returned Source is rendered with `renderSource`. -/
def create_source (store : Store) (pipeline : PipelineInput → Source) (data : SourceCreate) :
    Except HTTPError SourceResponse :=
  match create_source_validate store data with
  | .error e => .error e
  | .ok inp => .ok (renderSource (pipeline inp))

/-- GET /api/sources: optional notebook filter (Python truthiness: a
missing or empty notebook_id means no filter), each source rendered with
`renderSourceList`. -/
def get_sources (store : Store) (notebook_id : Option String) :
    Except HTTPError (List SourceListResponse) :=
  match notebook_id with
  | some nid =>
    if nid.isEmpty then .ok ((Source.get_all store).map renderSourceList)
    else
      match Notebook.get store nid with
      | none => .error ⟨404, "Notebook not found"⟩
      | some nb => .ok (nb.sources.map renderSourceList)
  | none => .ok ((Source.get_all store).map renderSourceList)

/-- A Python exception inside a handler body: either an HTTPException
raised intentionally, or any other exception. -/
inductive PyError where
  | http : HTTPError → PyError
  | other : String → PyError
deriving DecidableEq, Repr

/-- The except chain of get_source: `except HTTPException: raise`
re-raises intentional HTTP errors verbatim, and the catch-all turns any
other exception into a 500 whose detail is the handler's message plus
the exception text. -/
def handleErrors {α : Type} (msg : String) : Except PyError α → Except HTTPError α
  | .ok a => .ok a
  | .error (.http e) => .error e
  | .error (.other m) => .error ⟨500, msg ++ m⟩

/-- The try-block body of GET /api/sources/(id): lookup, 404 on a missing
source, otherwise the full SourceResponse. -/
def get_source_body (store : Store) (source_id : String) : Except PyError SourceResponse :=
  match Source.get store source_id with
  | none => .error (.http ⟨404, "Source not found"⟩)
  | some s => .ok (renderSource s)

/-- GET /api/sources/(id): the body wrapped in the except chain. -/
def get_source (store : Store) (source_id : String) : Except HTTPError SourceResponse :=
  handleErrors "Error fetching source: " (get_source_body store source_id)

/-- The field updates of PUT /api/sources/(id): title and topics are
overwritten only when provided, then `save()` refreshes the updated
timestamp (`now`). -/
def applyUpdate (s : Source) (upd : SourceUpdate) (now : String) : Source :=
  let s1 := match upd.title with
    | none => s
    | some t => { s with title := some t }
  let s2 := match upd.topics with
    | none => s1
    | some tp => { s1 with topics := some tp }
  { s2 with updated := now }

/-- PUT /api/sources/(id): lookup, apply the provided fields, save, and
render the saved object; returns the response together with the store
after the save. -/
def update_source (store : Store) (source_id : String) (upd : SourceUpdate) (now : String) :
    Except HTTPError SourceResponse × Store :=
  match Source.get store source_id with
  | none => (.error ⟨404, "Source not found"⟩, store)
  | some s =>
    let s2 := applyUpdate s upd now
    (.ok (renderSource s2), saveSource store s2)

/-- NoteCreate request DTO of POST /api/notes. -/
structure NoteCreate where
  title : Option String := none
  content : Option String := none
  note_type : Option String := none
  notebook_id : Option String := none
deriving DecidableEq, Repr

/-- NoteResponse DTO. -/
structure NoteResponse where
  id : String
  title : Option String
  content : Option String
  note_type : Option String
  created : String
  updated : String
deriving DecidableEq, Repr

/-- The NoteResponse construction of the notes router. -/
def renderNote (n : Note) : NoteResponse :=
  { id := n.id
    title := n.title
    content := n.content
    note_type := n.note_type
    created := n.created
    updated := n.updated }

/-- The Note object built by create_note once `save()` has assigned it an
id and timestamps.  Modelled from the spec: id assignment and timestamping
happen in the external `save()`; they are passed in as `freshId`/`now`. -/
def mkNote (data : NoteCreate) (freshId now : String) : Note :=
  { id := freshId
    title := data.title
    content := data.content
    note_type := data.note_type
    created := now
    updated := now }

/-- Modelled from the spec: `note.add_to_notebook(notebook_id)` links the
note to the notebook in the Domain Store. -/
def addToNotebook (store : Store) (nid : String) (note_id : String) : Store :=
  let link := fun (nb : Notebook) =>
    if nb.id == nid then { nb with note_ids := nb.note_ids ++ [note_id] } else nb
  { store with notebooks := store.notebooks.map link }

/-- POST /api/notes: the note is constructed and saved first; only then,
when a (truthy) notebook_id was supplied, is the notebook resolved — a
missing notebook raises 404 after the save, leaving the saved note in the
store. -/
def create_note (store : Store) (data : NoteCreate) (freshId now : String) :
    Except HTTPError NoteResponse × Store :=
  let note := mkNote data freshId now
  let store1 : Store := { store with notes := store.notes ++ [note] }
  match data.notebook_id with
  | none => (.ok (renderNote note), store1)
  | some nid =>
    if nid.isEmpty then (.ok (renderNote note), store1)
    else
      match Notebook.get store1 nid with
      | none => (.error ⟨404, "Notebook not found"⟩, store1)
      | some _ => (.ok (renderNote note), addToNotebook store1 nid freshId)

/-! ### Concrete test data used by witnesses and counterexamples -/

/-- A sample notebook with id nb1. -/
def nbMain : Notebook := { id := "nb1" }

/-- A sample source with insights and an asset, stored topics None. -/
def srcSample : Source :=
  { id := "src1"
    title := some "Doc"
    topics := none
    asset := some { file_path := some "/tmp/x.pdf" }
    full_text := some "hello"
    embedded_chunks := 0
    insights := ["i1", "i2"]
    created := "t0"
    updated := "t0" }

/-- A sample transformation with id A. -/
def transA : Transformation := { id := "A", name := "summarize" }

/-- An empty Domain Store. -/
def storeEmpty : Store := {}

/-- A store holding only notebook nb1. -/
def storeNb : Store := { notebooks := [nbMain] }

/-- A store holding notebook nb1, source src1 and transformation A. -/
def storeSrc : Store :=
  { notebooks := [nbMain], allSources := [srcSample], transformations := [transA] }

/-- A constant stand-in for the external ingestion pipeline. -/
def pipelineConst : PipelineInput → Source := fun _ => srcSample

/-- A text-origin request against notebook nb1 with no transformations. -/
def dataText : SourceCreate :=
  { notebook_id := "nb1", type := "text", content := some "hello" }

/-- The ainvoke payload create_source builds for `dataText`. -/
def inpText : PipelineInput :=
  { content_state := { content := some "hello" }
    notebook_id := "nb1"
    apply_transformations := []
    embed := false }

/-- A request whose notebook, origin field and transformation ids are all
invalid at once. -/
def dataBadAll : SourceCreate :=
  { notebook_id := "missing", type := "bogus", transformations := some ["ghost"] }

/-! ### Claim theorems -/

/-- Claim C2: when notebook_id does not resolve, create_source fails with
404 "Notebook not found" for every pipeline, whatever the rest of the
request contains — the notebook check precedes origin validation and
transformation lookup, so a bad notebook reference is reported first. -/
theorem create_source_notebook_checked_first (store : Store) (pl : PipelineInput → Source)
    (data : SourceCreate) (h : Notebook.get store data.notebook_id = none) :
    create_source store pl data = .error ⟨404, "Notebook not found"⟩ := by
  simp [create_source, create_source_validate, h]

/-- Witness for C2: a request whose origin discriminant and transformation
ids are also invalid still reports the missing notebook. -/
theorem create_source_notebook_checked_first_witness :
    Notebook.get storeEmpty dataBadAll.notebook_id = none ∧
    create_source storeEmpty pipelineConst dataBadAll = .error ⟨404, "Notebook not found"⟩ :=
  ⟨rfl, create_source_notebook_checked_first storeEmpty pipelineConst dataBadAll rfl⟩

/-- Claim C4: when the Domain Store returns no Source,
GET /api/sources/(id) answers 404 "Source not found" (in particular not
500), and the except chain re-raises any intentional HTTPException
verbatim instead of re-wrapping it as a 500. -/
theorem get_source_missing_404_never_500 (store : Store) (source_id p : String) (e : HTTPError)
    (h : Source.get store source_id = none) :
    get_source store source_id = .error ⟨404, "Source not found"⟩
    ∧ (404 : Nat) ≠ 500
    ∧ handleErrors p (.error (.http e)) = (.error e : Except HTTPError SourceResponse) := by
  refine ⟨?_, by decide, rfl⟩
  simp [get_source, get_source_body, h, handleErrors]

/-- Witness for C4 at an empty store and a concrete intentional error. -/
theorem get_source_missing_404_never_500_witness :
    Source.get storeEmpty "ghost" = none ∧
    get_source storeEmpty "ghost" = .error ⟨404, "Source not found"⟩ :=
  ⟨rfl, (get_source_missing_404_never_500 storeEmpty "ghost" "p" ⟨404, "x"⟩ rfl).1⟩

/-- Claim C9: the title field of the request is never forwarded: the
validation result (and hence the exact ainvoke payload) and the whole
handler response are unchanged when only title differs. -/
theorem create_source_ignores_title (store : Store) (pl : PipelineInput → Source)
    (data : SourceCreate) (t : Option String) :
    create_source_validate store { data with title := t } = create_source_validate store data
    ∧ create_source store pl { data with title := t } = create_source store pl data := by
  cases data
  exact ⟨rfl, rfl⟩

/-- A link-origin request with no url against a missing notebook. -/
def dataLinkNoUrlBadNb : SourceCreate := { notebook_id := "missing", type := "link" }

/-- A link-origin request with an empty url against notebook nb1. -/
def dataLinkNoUrl : SourceCreate := { notebook_id := "nb1", type := "link" }

/-- Counterexample to C1 as stated: a link request with no url whose
notebook_id does not resolve is answered 404, not 400 — the notebook
check runs before origin validation. -/
theorem create_source_missing_field_bad_notebook_cex :
    create_source storeEmpty pipelineConst dataLinkNoUrlBadNb = .error ⟨404, "Notebook not found"⟩
    ∧ (404 : Nat) ≠ 400 :=
  ⟨rfl, by decide⟩

/-- Claim C1 (amended): provided notebook_id resolves, a request of any
of the three origin kinds whose kind-specific required field is absent or
empty is answered 400 with the kind's message, for every pipeline — so
`source_graph.ainvoke` is never invoked. -/
theorem create_source_missing_origin_field_400 (store : Store) (pl : PipelineInput → Source)
    (data : SourceCreate) (nb : Notebook)
    (hnb : Notebook.get store data.notebook_id = some nb) :
    (data.type = "link" → optStrBlank data.url = true →
      create_source store pl data = .error ⟨400, "URL is required for link type"⟩)
    ∧ (data.type = "upload" → optStrBlank data.file_path = true →
      create_source store pl data = .error ⟨400, "File path is required for upload type"⟩)
    ∧ (data.type = "text" → optStrBlank data.content = true →
      create_source store pl data = .error ⟨400, "Content is required for text type"⟩) := by
  refine ⟨?_, ?_, ?_⟩ <;> intro ht hb <;>
    simp [create_source, create_source_validate, buildContentState, hnb, ht, hb]

/-- Witness for amended C1: link request with absent url on an existing
notebook. -/
theorem create_source_missing_origin_field_400_witness :
    Notebook.get storeNb dataLinkNoUrl.notebook_id = some nbMain ∧
    dataLinkNoUrl.type = "link" ∧ optStrBlank dataLinkNoUrl.url = true ∧
    create_source storeNb pipelineConst dataLinkNoUrl = .error ⟨400, "URL is required for link type"⟩ :=
  ⟨rfl, rfl, rfl,
    (create_source_missing_origin_field_400 storeNb pipelineConst dataLinkNoUrl nbMain rfl).1 rfl rfl⟩

/-- A request with an unsupported origin kind and a missing notebook. -/
def dataBadTypeBadNb : SourceCreate := { notebook_id := "missing", type := "video" }

/-- A request with an unsupported origin kind against notebook nb1. -/
def dataBadType : SourceCreate := { notebook_id := "nb1", type := "video" }

/-- Counterexample to C6 as stated: a request with an unsupported origin
kind whose notebook_id does not resolve is answered 404, not 400 — the
notebook check runs first. -/
theorem create_source_unknown_type_bad_notebook_cex :
    create_source storeEmpty pipelineConst dataBadTypeBadNb = .error ⟨404, "Notebook not found"⟩
    ∧ (404 : Nat) ≠ 400 :=
  ⟨rfl, by decide⟩

/-- Claim C6 (amended): provided notebook_id resolves, a request whose
origin discriminant is none of link, upload, text is answered 400 (detail
"Invalid source type. Must be link, upload, or text") for every pipeline,
so the pipeline is never invoked. -/
theorem create_source_unknown_type_400 (store : Store) (pl : PipelineInput → Source)
    (data : SourceCreate) (nb : Notebook)
    (hnb : Notebook.get store data.notebook_id = some nb)
    (h1 : data.type ≠ "link") (h2 : data.type ≠ "upload") (h3 : data.type ≠ "text") :
    create_source store pl data = .error ⟨400, "Invalid source type. Must be link, upload, or text"⟩ := by
  simp [create_source, create_source_validate, buildContentState, hnb, h1, h2, h3]

/-- Witness for amended C6: origin kind "video" on an existing notebook. -/
theorem create_source_unknown_type_400_witness :
    Notebook.get storeNb dataBadType.notebook_id = some nbMain ∧
    create_source storeNb pipelineConst dataBadType
      = .error ⟨400, "Invalid source type. Must be link, upload, or text"⟩ :=
  ⟨rfl, create_source_unknown_type_400 storeNb pipelineConst dataBadType nbMain rfl
    (by decide) (by decide) (by decide)⟩

/-- In a run of the transformation-resolution loop where every id in
`front` resolves and `tid` does not, the loop stops at `tid` and raises
404 naming it — resolution follows the caller-supplied order. -/
theorem resolveTransformations_first_missing (store : Store) (tid : String) (rest : List String) :
    ∀ front : List String, (∀ t ∈ front, (Transformation.get store t).isSome = true) →
    Transformation.get store tid = none →
    resolveTransformations store (front ++ tid :: rest)
      = .error ⟨404, "Transformation " ++ tid ++ " not found"⟩ := by
  intro front
  induction front with
  | nil =>
    intro _ hmiss
    simp [resolveTransformations, hmiss]
  | cons a l ih =>
    intro hfront hmiss
    have ha : (Transformation.get store a).isSome = true := hfront a (by simp)
    obtain ⟨ta, hta⟩ := Option.isSome_iff_exists.mp ha
    have hrec := ih (fun t ht => hfront t (by simp [ht])) hmiss
    simp [resolveTransformations, hta, hrec]

/-- A link request with an empty url and an unresolved transformation id. -/
def dataEmptyUrlMissingTrans : SourceCreate :=
  { notebook_id := "nb1", type := "link", url := some "", transformations := some ["B"] }

/-- Counterexample to C3 as stated: a request carrying an unresolved
transformation id but an empty url is answered 400 for the url, not 404
naming the id — origin validation precedes transformation lookup. -/
theorem create_source_transformation_not_first_cex :
    create_source storeNb pipelineConst dataEmptyUrlMissingTrans
      = .error ⟨400, "URL is required for link type"⟩
    ∧ (400 : Nat) ≠ 404 :=
  ⟨rfl, by decide⟩

/-- Claim C3 (amended): for a request that passes the notebook and origin
checks, transformation ids are resolved in the caller-supplied order and
the first unresolved id fails the request with 404 naming that id, for
every pipeline — the pipeline is never invoked. -/
theorem create_source_first_missing_transformation_404 (store : Store)
    (pl : PipelineInput → Source) (data : SourceCreate) (nb : Notebook) (cs : ContentState)
    (front rest : List String) (tid : String)
    (hnb : Notebook.get store data.notebook_id = some nb)
    (hcs : buildContentState data = .ok cs)
    (hts : data.transformations = some (front ++ tid :: rest))
    (hfront : ∀ t ∈ front, (Transformation.get store t).isSome = true)
    (hmiss : Transformation.get store tid = none) :
    create_source store pl data = .error ⟨404, "Transformation " ++ tid ++ " not found"⟩ := by
  have hres := resolveTransformations_first_missing store tid rest front hfront hmiss
  simp [create_source, create_source_validate, hnb, hcs, hts, hres]

/-- A text request over notebook nb1 listing transformation ids A then B,
where A exists and B does not. -/
def dataAB : SourceCreate :=
  { notebook_id := "nb1", type := "text", content := some "hello"
    transformations := some ["A", "B"] }

/-- Witness for amended C3: ids [A, B] with A valid and B missing fail
with 404 naming B. -/
theorem create_source_first_missing_transformation_404_witness :
    Notebook.get storeSrc dataAB.notebook_id = some nbMain ∧
    buildContentState dataAB = .ok { content := some "hello" } ∧
    dataAB.transformations = some (["A"] ++ "B" :: []) ∧
    Transformation.get storeSrc "B" = none ∧
    create_source storeSrc pipelineConst dataAB
      = .error ⟨404, "Transformation B not found"⟩ :=
  ⟨rfl, rfl, rfl, rfl,
    create_source_first_missing_transformation_404 storeSrc pipelineConst dataAB nbMain
      { content := some "hello" } ["A"] [] "B" rfl rfl rfl (by decide) rfl⟩

/-- Claim C7: the detail endpoints return the full SourceResponse shape
(full_text passed through), the create endpoint renders the pipeline's
Source the same way, and the list endpoint renders every source as a
SourceListResponse — a shape with no full_text field — whose
insights_count is the number of the source's insights. -/
theorem sources_response_shapes (store : Store) (pl : PipelineInput → Source)
    (data : SourceCreate) (inp : PipelineInput) (source_id : String) (s : Source)
    (h : Source.get store source_id = some s)
    (hv : create_source_validate store data = .ok inp) :
    get_source store source_id = .ok (renderSource s)
    ∧ (renderSource s).full_text = s.full_text
    ∧ create_source store pl data = .ok (renderSource (pl inp))
    ∧ (renderSourceList s).insights_count = s.insights.length
    ∧ get_sources store none = .ok ((Source.get_all store).map renderSourceList) := by
  refine ⟨?_, rfl, ?_, rfl, rfl⟩
  · simp [get_source, get_source_body, h, handleErrors]
  · simp [create_source, hv]

/-- Witness for C7 on a store holding source src1 (two insights) and a
valid text request. -/
theorem sources_response_shapes_witness :
    Source.get storeSrc "src1" = some srcSample ∧
    create_source_validate storeSrc dataText = .ok inpText ∧
    get_source storeSrc "src1" = .ok (renderSource srcSample) ∧
    (renderSourceList srcSample).insights_count = 2 ∧
    create_source storeSrc pipelineConst dataText = .ok (renderSource (pipelineConst inpText)) :=
  ⟨rfl, rfl,
    (sources_response_shapes storeSrc pipelineConst dataText inpText "src1" srcSample rfl rfl).1,
    rfl,
    (sources_response_shapes storeSrc pipelineConst dataText inpText "src1" srcSample rfl rfl).2.2.1⟩

/-- Claim C10: every success response of the sources router is built by
`renderSource` (create, get, update) or `renderSourceList` (list), and
both render topics as `source.topics or []`: always a list, with a stored
None rendered as the empty list. -/
theorem sources_topics_never_null (store : Store) (pl : PipelineInput → Source)
    (data : SourceCreate) (inp : PipelineInput) (source_id now : String)
    (upd : SourceUpdate) (s : Source)
    (hget : Source.get store source_id = some s)
    (hv : create_source_validate store data = .ok inp) :
    (renderSource s).topics = s.topics.getD []
    ∧ (renderSourceList s).topics = s.topics.getD []
    ∧ (s.topics = none → (renderSource s).topics = [] ∧ (renderSourceList s).topics = [])
    ∧ get_source store source_id = .ok (renderSource s)
    ∧ (update_source store source_id upd now).fst = .ok (renderSource (applyUpdate s upd now))
    ∧ create_source store pl data = .ok (renderSource (pl inp))
    ∧ get_sources store none = .ok ((Source.get_all store).map renderSourceList) := by
  refine ⟨rfl, rfl, ?_, ?_, ?_, ?_, rfl⟩
  · intro h
    simp [renderSource, renderSourceList, h]
  · simp [get_source, get_source_body, hget, handleErrors]
  · simp [update_source, hget]
  · simp [create_source, hv]

/-- Witness for C10: src1 has stored topics None and every endpoint
renders it with topics `[]`. -/
theorem sources_topics_never_null_witness :
    Source.get storeSrc "src1" = some srcSample ∧
    srcSample.topics = none ∧
    (renderSource srcSample).topics = [] ∧
    (renderSourceList srcSample).topics = [] ∧
    get_source storeSrc "src1" = .ok (renderSource srcSample) :=
  ⟨rfl, rfl,
    ((sources_topics_never_null storeSrc pipelineConst dataText inpText "src1" "t1"
      { title := none, topics := none } srcSample rfl rfl).2.2.1 rfl).1,
    ((sources_topics_never_null storeSrc pipelineConst dataText inpText "src1" "t1"
      { title := none, topics := none } srcSample rfl rfl).2.2.1 rfl).2,
    (sources_topics_never_null storeSrc pipelineConst dataText inpText "src1" "t1"
      { title := none, topics := none } srcSample rfl rfl).2.2.2.1⟩

/-- Claim C8: POST /api/notes saves the note before resolving the
notebook; with a truthy notebook_id that does not resolve, the handler
answers 404 while the store nonetheless already holds the new note. -/
theorem create_note_saves_before_notebook_check (store : Store) (data : NoteCreate)
    (nid freshId now : String)
    (h1 : data.notebook_id = some nid)
    (h2 : nid.isEmpty = false)
    (h3 : Notebook.get store nid = none) :
    (create_note store data freshId now).fst = .error ⟨404, "Notebook not found"⟩
    ∧ (create_note store data freshId now).snd.notes
        = store.notes ++ [mkNote data freshId now] := by
  have h3b : Notebook.get { store with notes := store.notes ++ [mkNote data freshId now] } nid
      = none := h3
  constructor <;> simp [create_note, h1, h2, h3b]

/-- A note-creation request pointing at a notebook that does not exist. -/
def noteDataGhost : NoteCreate := { title := some "n", notebook_id := some "ghost" }

/-- Witness for C8 on the empty store: the request errors with 404 yet
the note is persisted. -/
theorem create_note_saves_before_notebook_check_witness :
    noteDataGhost.notebook_id = some "ghost" ∧
    Notebook.get storeEmpty "ghost" = none ∧
    (create_note storeEmpty noteDataGhost "n1" "t1").fst = .error ⟨404, "Notebook not found"⟩ ∧
    (create_note storeEmpty noteDataGhost "n1" "t1").snd.notes
      = [mkNote noteDataGhost "n1" "t1"] :=
  ⟨rfl, rfl,
    (create_note_saves_before_notebook_check storeEmpty noteDataGhost "ghost" "n1" "t1"
      rfl rfl rfl).1,
    (create_note_saves_before_notebook_check storeEmpty noteDataGhost "ghost" "n1" "t1"
      rfl rfl rfl).2⟩

/-- Replacing, in a list, every record whose id equals the id of the new
record, where that id is the one a successful lookup found: the lookup on
the updated list now returns the new record. -/
theorem find_after_replace (id : String) (s s2 : Source) (hid : s2.id = id) :
    ∀ l : List Source, l.find? (fun x => x.id == id) = some s →
    (l.map (fun x => if x.id == s2.id then s2 else x)).find? (fun x => x.id == id) = some s2 := by
  intro l
  induction l with
  | nil => intro h; exact absurd h (by simp)
  | cons a t ih =>
    intro h
    rw [List.map_cons]
    by_cases ha : a.id = id
    · have hrep : (a.id == s2.id) = true := by simp [ha, hid]
      have hp : (s2.id == id) = true := by simp [hid]
      rw [if_pos hrep, List.find?_cons, hp]
    · have hfa : (a.id == id) = false := by simpa using ha
      have ht : t.find? (fun x => x.id == id) = some s := by
        rw [List.find?_cons, hfa] at h
        exact h
      have hrep : ¬((a.id == s2.id) = true) := by
        simp only [beq_iff_eq, hid]
        exact ha
      rw [if_neg hrep, List.find?_cons, hfa]
      exact ih ht

/-- After `save()` writes back an object carrying the same id,
`Source.get` returns the saved object. -/
theorem get_after_saveSource (store : Store) (id : String) (s s2 : Source)
    (h : Source.get store id = some s) (hid : s2.id = s.id) :
    Source.get (saveSource store s2) id = some s2 := by
  have h2 : store.allSources.find? (fun x => x.id == id) = some s := h
  have hsid : s.id = id := by simpa using List.find?_some h2
  exact find_after_replace id s s2 (hid.trans hsid) store.allSources h2

/-- Claim C5: a PUT providing only title rewrites exactly the title (and
the save-managed updated timestamp): the response and the stored record
are the original source with only those two fields changed, a subsequent
GET returns that same record, and in general any field absent from the
update body is left unchanged by the update step. -/
theorem update_source_title_frame (store : Store) (source_id : String) (s : Source)
    (t now : String) (upd : SourceUpdate)
    (h : Source.get store source_id = some s) :
    update_source store source_id { title := some t } now
      = (.ok (renderSource { s with title := some t, updated := now }),
         saveSource store { s with title := some t, updated := now })
    ∧ get_source (update_source store source_id { title := some t } now).snd source_id
      = .ok (renderSource { s with title := some t, updated := now })
    ∧ (applyUpdate s upd now).asset = s.asset
    ∧ (applyUpdate s upd now).full_text = s.full_text
    ∧ (applyUpdate s upd now).embedded_chunks = s.embedded_chunks
    ∧ (applyUpdate s upd now).created = s.created
    ∧ (applyUpdate s upd now).id = s.id
    ∧ (upd.title = none → (applyUpdate s upd now).title = s.title)
    ∧ (upd.topics = none → (applyUpdate s upd now).topics = s.topics) := by
  have hup : update_source store source_id { title := some t } now
      = (.ok (renderSource { s with title := some t, updated := now }),
         saveSource store { s with title := some t, updated := now }) := by
    simp [update_source, h, applyUpdate]
  refine ⟨hup, ?_, ?_, ?_, ?_, ?_, ?_, ?_, ?_⟩
  · have hsaved : Source.get (saveSource store { s with title := some t, updated := now })
        source_id = some { s with title := some t, updated := now } :=
      get_after_saveSource store source_id s { s with title := some t, updated := now } h rfl
    rw [hup]
    simp [get_source, get_source_body, hsaved, handleErrors]
  all_goals cases hti : upd.title <;> cases hto : upd.topics <;>
    simp [applyUpdate, hti, hto]

/-- Witness for C5: updating only the title of src1 leaves topics, asset
and full_text untouched in the response and in the following GET. -/
theorem update_source_title_frame_witness :
    Source.get storeSrc "src1" = some srcSample ∧
    update_source storeSrc "src1" { title := some "New" } "t1"
      = (.ok (renderSource { srcSample with title := some "New", updated := "t1" }),
         saveSource storeSrc { srcSample with title := some "New", updated := "t1" }) ∧
    get_source (update_source storeSrc "src1" { title := some "New" } "t1").snd "src1"
      = .ok (renderSource { srcSample with title := some "New", updated := "t1" }) ∧
    (applyUpdate srcSample { title := some "New" } "t1").topics = srcSample.topics ∧
    (applyUpdate srcSample { title := some "New" } "t1").asset = srcSample.asset :=
  ⟨rfl,
    (update_source_title_frame storeSrc "src1" srcSample "New" "t1"
      { title := some "New" } rfl).1,
    (update_source_title_frame storeSrc "src1" srcSample "New" "t1"
      { title := some "New" } rfl).2.1,
    (update_source_title_frame storeSrc "src1" srcSample "New" "t1"
      { title := some "New" } rfl).2.2.2.2.2.2.2.2 rfl,
    (update_source_title_frame storeSrc "src1" srcSample "New" "t1"
      { title := some "New" } rfl).2.2.1⟩
